import Mathlib

/-!
Shallow embedding of data-formulator's `DuckDBManager` (`db_manager.py`) and
`PostgreSQLDataLoader` (`postgresql_data_loader.py`), with theorems checking
the natural-language specification against the code.

Modelling conventions:
* A Python `dict` keyed by strings is an association list `List (String × β)`
  read through `List.lookup`; assigning a fresh key appends it (matching the
  dict's insertion order), assigning an existing key overwrites in place.
* Filesystem and OS behaviour reached through `tempfile`, `os`, `pathlib` and
  `duckdb` is abstracted into an explicit environment `SysEnv`:
  `cwd` is `Path.cwd()`, `tempDir` is `tempfile.gettempdir()`,
  `resolve` is `Path.resolve()` (symlink resolution + normalisation),
  `writable d` is true exactly when `os.makedirs(d, exist_ok=True)` followed
  by the touch/unlink write test succeeds without raising.
* Machine behaviour of the embedded SQL engine (DuckDB) is modelled at the
  level of the documented statement semantics the source relies on:
  a database is a mapping from table name to its ordered rows, `LIMIT n`
  takes the first `n` rows, `CREATE OR REPLACE TABLE` rebinds the name.
-/

namespace DataFormulator

/-! ### Environment abstraction for OS-level effects -/

/-- The OS facts `db_manager.py` consults: current working directory,
platform temp directory, `Path.resolve`, and whether a directory can be
created-and-written (`os.makedirs` + touch/unlink test). -/
structure SysEnv where
  cwd : String
  tempDir : String
  resolve : String → String
  writable : String → Bool

/-- POSIX absoluteness test used by `Path.is_absolute`: a leading slash. -/
def isAbsolute (s : String) : Bool :=
  match s.data with
  | c :: _ => c == '/'
  | [] => false

/-! ### DuckDBManager (`db_manager.py`) -/

/-- The mutable state of a `DuckDBManager`: the resolved `_local_db_dir`
(`None` when unset) and the `_db_files` session-id → file-path dict. -/
structure DuckDBManagerState where
  localDbDir : Option String
  dbFiles : List (String × String)
deriving DecidableEq

/-- Constructor `DuckDBManager.__init__` (db_manager.py lines 15-31): a falsy
`local_db_dir` (Python `None` or `""`) leaves `_local_db_dir = None`;
otherwise the path is made absolute against the call-time cwd if needed and
then symlink-resolved via `Path.resolve()`. `_db_files` starts empty. -/
def DuckDBManager_init (local_db_dir : Option String) (env : SysEnv) : DuckDBManagerState :=
  match local_db_dir with
  | none => ⟨none, []⟩
  | some d =>
    if d = "" then ⟨none, []⟩
    else
      let path := if isAbsolute d then d else env.cwd ++ "/" ++ d
      ⟨some (env.resolve path), []⟩

/-- Result of one `get_connection` call: the manager state afterwards, the
backing db file the returned connection is bound to, and the directory (if
any) on which `os.makedirs(..., exist_ok=True)` was attempted. -/
structure GetConnResult where
  state : DuckDBManagerState
  dbFile : String
  mkdirsOn : Option String
deriving DecidableEq

/-- db_manager.py line 53:
`db_dir = self._local_db_dir if self._local_db_dir else tempfile.gettempdir()`. -/
def configured_db_dir (m : DuckDBManagerState) (env : SysEnv) : String :=
  match m.localDbDir with
  | some d => d
  | none => env.tempDir

/-- db_manager.py lines 56-68: attempt `os.makedirs(db_dir, exist_ok=True)`
plus the touch/unlink write test, falling back to the temp directory when
that raises `OSError`/`PermissionError`, then
`str((Path(db_dir) / f"df_{session_id}.duckdb").resolve())`. -/
def fresh_db_file (m : DuckDBManagerState) (env : SysEnv) (s : String) : String :=
  let db_dir :=
    if env.writable (configured_db_dir m env) then configured_db_dir m env else env.tempDir
  env.resolve (db_dir ++ "/" ++ "df_" ++ s ++ ".duckdb")

/-- Method `DuckDBManager.get_connection` (db_manager.py lines 47-77): when the
session id has no recorded path, compute `fresh_db_file` (makedirs/write
test on the configured directory, temp fallback, `df_<id>.duckdb` naming)
and record it under the id; when a path is already recorded, reuse it
unchanged. (The stored value is only ever a `str`, so the `is None` half of
the source's guard never fires; `duckdb.connect` itself is modelled as
succeeding.) -/
def get_connection (m : DuckDBManagerState) (env : SysEnv) (s : String) : GetConnResult :=
  match m.dbFiles.lookup s with
  | some f => ⟨m, f, none⟩
  | none =>
    ⟨⟨m.localDbDir, m.dbFiles ++ [(s, fresh_db_file m env s)]⟩, fresh_db_file m env s,
      some (configured_db_dir m env)⟩

/-- How the `with`-body of the scoped helper exits: normal return with a
value, an exception raised by the body, or cancellation (`GeneratorExit`)
delivered at the yield point. -/
inductive BodyOutcome (α : Type) where
  | ok (a : α)
  | exn
  | cancelled

/-- Method `DuckDBManager.connection` (db_manager.py lines 36-45): the
`@contextmanager` helper acquires a connection via `get_connection`, yields
it to the body, and in its `finally` block closes it; the body's outcome
(return value, exception, or cancellation) propagates unchanged. The third
component lists the connections closed by the helper, in order. -/
def connection {α : Type} (m : DuckDBManagerState) (env : SysEnv) (s : String)
    (body : String → BodyOutcome α) :
    DuckDBManagerState × BodyOutcome α × List String :=
  let r := get_connection m env s
  (r.state, body r.dbFile, [r.dbFile])

/-! ### Python `str.replace` -/

/-- One left-to-right, non-overlapping replacement pass for a nonempty
pattern `p :: ps`, matching CPython's `str.replace` scan: at each position,
if the pattern matches, emit `rep` and skip past the match, else keep the
character and continue. -/
def pyReplaceNE (p : Char) (ps rep : List Char) : List Char → List Char
  | [] => []
  | c :: cs =>
    if (p :: ps).isPrefixOf (c :: cs) then
      rep ++ pyReplaceNE p ps rep (cs.drop ps.length)
    else
      c :: pyReplaceNE p ps rep cs
termination_by s => s.length
decreasing_by
  · simp only [List.length_cons, List.length_drop]
    omega
  · simp only [List.length_cons]
    omega

/-- Python's `s.replace(old, new)`: for an empty `old`, CPython inserts
`new` before every character and at the end (`"ab".replace("", "-") ==
"-a-b-"`); for a nonempty `old` it is the left-to-right scan above. -/
def pyReplace (s old new : String) : String :=
  match old.data with
  | [] => ⟨new.data ++ (s.data.map fun c => [c] ++ new.data).flatten⟩
  | p :: ps => ⟨pyReplaceNE p ps new.data s.data⟩

/-- Occurrence of `p` in `s` as a contiguous substring (in Python terms,
`p in s`). -/
def occursIn (p s : List Char) : Prop := ∃ a b, s = a ++ p ++ b

/-! ### PostgreSQLDataLoader (`postgresql_data_loader.py`) -/

/-- Outcomes of the four fallible engine calls the constructor makes, in
source order: `install_extension("postgres")`, `load_extension("postgres")`,
`execute("DETACH postgresdb;")`, `execute(attach_query)`. An `.error e`
carries `str(e)` of the exception the call raised. -/
structure PgConnOps where
  install_ext : Except String Unit
  load_ext : Except String Unit
  detach : Except String Unit
  attach : Except String Unit

/-- Python `params.get(k, dflt)` on the string-valued params dict. -/
def getParam (params : List (String × String)) (k dflt : String) : String :=
  (params.lookup k).getD dflt

/-- The masked dict comprehension from line 28 of the source:
`{k: v if k != 'password' else '***' for k, v in params.items()}`. -/
def maskParams (params : List (String × String)) : List (String × String) :=
  params.map fun kv => if kv.1 == "password" then (kv.1, "***") else kv

/-- Model of `json.dumps` on a dict of plain strings (no escape-needing characters):
keys and values in insertion order, each quoted, separated by `", "`. -/
def jsonDumps (l : List (String × String)) : String :=
  "\x7b" ++ String.intercalate ", "
    (l.map fun kv => "\"" ++ kv.1 ++ "\": \"" ++ kv.2 ++ "\"") ++ "\x7d"

/-- The params log line (source line 28). -/
def params_log_line (params : List (String × String)) : String :=
  "Initializing PostgreSQL connection with params: " ++ jsonDumps (maskParams params)

/-- The connection URL built on source line 48:
`postgresql://{user}:{password}@{host}:{port}/{database}`. -/
def connection_url (params : List (String × String)) : String :=
  "postgresql://" ++ getParam params "user" "postgres" ++ ":"
    ++ getParam params "password" "" ++ "@"
    ++ getParam params "host" "localhost" ++ ":"
    ++ getParam params "port" "5432" ++ "/"
    ++ getParam params "database" "postgres"

/-- The masked connection-URL log line (source line 49): the password slot
is rendered as `***`, all other fields verbatim. -/
def connection_url_log (params : List (String × String)) : String :=
  "Connection URL (masked): postgresql://" ++ getParam params "user" "postgres" ++ ":***@"
    ++ getParam params "host" "localhost" ++ ":"
    ++ getParam params "port" "5432" ++ "/"
    ++ getParam params "database" "postgres"

/-- The attach statement built on source line 60. -/
def attach_query (params : List (String × String)) : String :=
  "ATTACH '" ++ connection_url params ++ "' AS postgresdb (TYPE postgres)"

/-- The attach-query log line (source line 61):
`attach_query.replace(password, '***')` behind a fixed caption. -/
def attach_query_log (params : List (String × String)) : String :=
  "Executing attach query: "
    ++ pyReplace (attach_query params) (getParam params "password" "") "***"

/-- Constructor `PostgreSQLDataLoader.__init__` (source lines 24-67): log the masked
params; install+load the postgres extension, re-raising any failure wrapped
as `Failed to install/load PostgreSQL extension: <e>`; log the masked URL;
attempt `DETACH postgresdb;`, swallowing any failure (the bare `except`)
and logging which way it went; log the masked attach query; execute the
attach, re-raising any failure wrapped as
`Failed to connect to PostgreSQL: <e>`. Returns the constructor's outcome
and the ordered list of strings logged. -/
def pgLoaderInit (ops : PgConnOps) (params : List (String × String)) :
    Except String Unit × List String :=
  let logs0 := [params_log_line params]
  match ops.install_ext with
  | .error e =>
    let msg := "Failed to install/load PostgreSQL extension: " ++ e
    (.error msg, logs0 ++ [msg])
  | .ok _ =>
    match ops.load_ext with
    | .error e =>
      let msg := "Failed to install/load PostgreSQL extension: " ++ e
      (.error msg, logs0 ++ [msg])
    | .ok _ =>
      let logs1 := logs0 ++ ["PostgreSQL extension installed and loaded successfully",
        connection_url_log params]
      let logs2 := logs1 ++ [match ops.detach with
        | .ok _ => "Detached existing postgresdb connection"
        | .error _ => "No existing postgresdb connection to detach"]
      let logs3 := logs2 ++ [attach_query_log params]
      match ops.attach with
      | .error e =>
        let msg := "Failed to connect to PostgreSQL: " ++ e
        (.error msg, logs3 ++ [msg])
      | .ok _ => (.ok (), logs3 ++ ["Successfully connected to PostgreSQL"])

/-- Modelled from the spec: `sanitize_table_name` is defined in
`external_data_loader.py`, which is not among the provided source files;
the spec says only that it maps a name to an identifier safe to splice into
SQL, stripping/escaping characters unsafe in an identifier. Modelled as
replacing every character that is not a letter, digit or underscore with an
underscore. -/
def sanitize_table_name (name : String) : String :=
  String.mk (name.data.map fun c => if c.isAlphanum || c == '_' then c else '_')

/-- The embedded engine's catalog: table name → ordered rows (rows of an
arbitrary type `α`). -/
structure Database (α : Type) where
  tables : List (String × List α)
deriving DecidableEq

/-- Dict-style update: rebind `k` in place if present, else append. This is
the effect of `CREATE OR REPLACE TABLE k`. -/
def setTable {α : Type} (l : List (String × List α)) (k : String) (v : List α) :
    List (String × List α) :=
  match l with
  | [] => [(k, v)]
  | e :: rest => if e.1 == k then (k, v) :: rest else e :: setTable rest k v

/-- Method `PostgreSQLDataLoader.ingest_data` (source lines 109-120): default the
destination name to `table_name.split('.')[-1]` when `name_as` is `None`,
sanitize it, then execute
`CREATE OR REPLACE TABLE main.{name_as} AS SELECT * FROM {table_name} LIMIT {size}` —
modelled by the engine's documented semantics: take the first `size` rows
of the source table and rebind `main.<name>` to them, overwriting any
existing binding; a missing source table makes the engine raise. -/
def ingest_data {α : Type} (db : Database α) (table_name : String)
    (name_as : Option String) (size : Nat) : Except String (Database α) :=
  let nm0 := match name_as with
    | none => (table_name.splitOn ".").getLastD ""
    | some n => n
  let nm := sanitize_table_name nm0
  match db.tables.lookup table_name with
  | none => .error ("Table with name " ++ table_name ++ " does not exist!")
  | some rows => .ok ⟨setTable db.tables ("main." ++ nm) (rows.take size)⟩

/-- A connection as `view_query_sample` uses it: `execute(query)` yields the
result rows in order (then `.df().head(10).to_dict(orient="records")`
keeps the first 10 as row mappings). -/
structure QueryConn (α : Type) where
  execute : String → List α

/-- Method `PostgreSQLDataLoader.view_query_sample` (source lines 122-123). -/
def view_query_sample {α : Type} (conn : QueryConn α) (query : String) : List α :=
  (conn.execute query).take 10

/-! ## Helper lemmas -/

/-! ### Association-list (Python dict) lemmas -/

theorem lookup_append_of_some {β : Type} {l l' : List (String × β)} {k : String} {v : β}
    (h : l.lookup k = some v) : (l ++ l').lookup k = some v := by
  induction l with
  | nil => simp [List.lookup] at h
  | cons e es ih =>
    simp only [List.lookup, List.cons_append] at h ⊢
    by_cases hk : (k == e.1) = true
    · simpa [hk] using h
    · simp only [hk] at h ⊢
      · exact ih h

theorem lookup_append_of_none {β : Type} {l : List (String × β)} {k : String}
    (h : l.lookup k = none) (l' : List (String × β)) :
    (l ++ l').lookup k = l'.lookup k := by
  induction l with
  | nil => simp
  | cons e es ih =>
    simp only [List.lookup, List.cons_append] at h ⊢
    by_cases hk : (k == e.1) = true
    · simp [hk] at h
    · simp only [hk] at h ⊢
      · exact ih h

theorem lookup_singleton_self {β : Type} (k : String) (v : β) :
    ([(k, v)] : List (String × β)).lookup k = some v := by
  simp [List.lookup]

theorem lookup_singleton_ne {β : Type} {t k : String} (v : β) (h : t ≠ k) :
    ([(k, v)] : List (String × β)).lookup t = none := by
  have hb : (t == k) = false := beq_eq_false_iff_ne.mpr h
  simp [List.lookup, hb]

theorem lookup_append_singleton_ne {β : Type} {l : List (String × β)} {k t : String}
    (v : β) (h : t ≠ k) : (l ++ [(k, v)]).lookup t = l.lookup t := by
  induction l with
  | nil => simpa using lookup_singleton_ne v h
  | cons e es ih =>
    simp only [List.cons_append, List.lookup]
    cases t == e.1 <;> simp [ih]

theorem lookup_setTable_self {α : Type} (l : List (String × List α)) (k : String) (v : List α) :
    (setTable l k v).lookup k = some v := by
  induction l with
  | nil => simp [setTable, List.lookup]
  | cons e es ih =>
    by_cases he : e.1 = k
    · simp [setTable, he, List.lookup]
    · have h1 : (e.1 == k) = false := beq_eq_false_iff_ne.mpr he
      have h2 : (k == e.1) = false := beq_eq_false_iff_ne.mpr (Ne.symm he)
      simp [setTable, h1, List.lookup, h2, ih]

/-! ### `get_connection` unfolding lemmas -/

theorem get_connection_of_some {m : DuckDBManagerState} {env : SysEnv} {s f : String}
    (h : m.dbFiles.lookup s = some f) : get_connection m env s = ⟨m, f, none⟩ := by
  unfold get_connection
  rw [h]

theorem get_connection_of_none {m : DuckDBManagerState} {env : SysEnv} {s : String}
    (h : m.dbFiles.lookup s = none) :
    get_connection m env s =
      ⟨⟨m.localDbDir, m.dbFiles ++ [(s, fresh_db_file m env s)]⟩, fresh_db_file m env s,
        some (configured_db_dir m env)⟩ := by
  unfold get_connection
  rw [h]

theorem get_connection_lookup_self (m : DuckDBManagerState) (env : SysEnv) (s : String) :
    (get_connection m env s).state.dbFiles.lookup s = some (get_connection m env s).dbFile := by
  cases h : m.dbFiles.lookup s with
  | some f => rw [get_connection_of_some h]; exact h
  | none =>
    rw [get_connection_of_none h]
    rw [lookup_append_of_none h]
    exact lookup_singleton_self _ _

/-! ### Occurrence and `pyReplaceNE` lemmas -/

theorem occursIn_cons {p : List Char} {c : Char} {s : List Char} (h : occursIn p (c :: s)) :
    (∃ b, c :: s = p ++ b) ∨ occursIn p s := by
  obtain ⟨a, b, hab⟩ := h
  cases a with
  | nil => exact Or.inl ⟨b, by simpa using hab⟩
  | cons x xs =>
    right
    rw [List.cons_append, List.cons_append] at hab
    injection hab with h1 h2
    exact ⟨xs, b, by rw [h2, List.append_assoc]⟩

theorem not_occursIn_append_left {p : List Char} (hp : p ≠ []) :
    ∀ (rep t : List Char), (∀ c ∈ p, c ∉ rep) → occursIn p (rep ++ t) → occursIn p t := by
  intro rep
  induction rep with
  | nil =>
    intro t _ h
    simpa using h
  | cons r rs ih =>
    intro t hd h
    have h' : occursIn p (r :: (rs ++ t)) := by simpa using h
    rcases occursIn_cons h' with ⟨b, hb⟩ | h2
    · cases p with
      | nil => exact absurd rfl hp
      | cons q qs =>
        rw [List.cons_append] at hb
        injection hb with h1 _
        have hq : q ∈ r :: rs := by rw [← h1]; exact List.mem_cons_self _ _
        exact absurd hq (hd q (List.mem_cons_self q qs))
    · exact ih t (fun c hc hcr => hd c hc (List.mem_cons_of_mem r hcr)) h2

theorem pyReplaceNE_nil (p : Char) (ps rep : List Char) :
    pyReplaceNE p ps rep [] = [] := by
  rw [pyReplaceNE]

theorem pyReplaceNE_cons_pos {p : Char} {ps : List Char} {c : Char} {cs : List Char}
    (rep : List Char) (h : (p :: ps).isPrefixOf (c :: cs) = true) :
    pyReplaceNE p ps rep (c :: cs) = rep ++ pyReplaceNE p ps rep (cs.drop ps.length) := by
  rw [pyReplaceNE, h]
  rfl

theorem pyReplaceNE_cons_neg {p : Char} {ps : List Char} {c : Char} {cs : List Char}
    (rep : List Char) (h : (p :: ps).isPrefixOf (c :: cs) = false) :
    pyReplaceNE p ps rep (c :: cs) = c :: pyReplaceNE p ps rep cs := by
  rw [pyReplaceNE, h]
  rfl

/-- A nonempty string over characters outside `rep` that is a prefix of the
replacement's output is already a prefix of the input: the scan only ever
emits `rep`-blocks (which such a string cannot enter) and untouched input
characters. -/
theorem pyReplaceNE_reflect (p : Char) (ps rep : List Char) (hrep : rep ≠ []) :
    ∀ n s, s.length ≤ n → ∀ q : List Char, q ≠ [] → (∀ c ∈ q, c ∉ rep) →
      q <+: pyReplaceNE p ps rep s → q <+: s := by
  intro n
  induction n with
  | zero =>
    intro s hs q hq _ hpre
    have hnil : s = [] := List.length_eq_zero.mp (Nat.le_zero.mp hs)
    subst hnil
    rw [pyReplaceNE_nil] at hpre
    exact absurd (List.prefix_nil.mp hpre) hq
  | succ n ih =>
    intro s hs q hq hd hpre
    cases s with
    | nil =>
      rw [pyReplaceNE_nil] at hpre
      exact absurd (List.prefix_nil.mp hpre) hq
    | cons c cs =>
      have hlen : cs.length ≤ n := by
        simp only [List.length_cons] at hs
        omega
      cases hpf : (p :: ps).isPrefixOf (c :: cs) with
      | true =>
        rw [pyReplaceNE_cons_pos rep hpf] at hpre
        cases rep with
        | nil => exact absurd rfl hrep
        | cons r rs =>
          cases q with
          | nil => exact absurd rfl hq
          | cons qh qt =>
            obtain ⟨t', ht'⟩ := hpre
            rw [List.cons_append, List.cons_append] at ht'
            injection ht' with h1 _
            have hmem : qh ∈ r :: rs := by rw [h1]; exact List.mem_cons_self _ _
            exact absurd hmem (hd qh (List.mem_cons_self qh qt))
      | false =>
        rw [pyReplaceNE_cons_neg rep hpf] at hpre
        cases q with
        | nil => exact absurd rfl hq
        | cons qh qt =>
          obtain ⟨t', ht'⟩ := hpre
          rw [List.cons_append] at ht'
          injection ht' with h1 h2
          by_cases hqt : qt = []
          · subst hqt
            exact ⟨cs, by rw [List.cons_append, h1, List.nil_append]⟩
          · have hqt_pre : qt <+: pyReplaceNE p ps rep cs := ⟨t', h2⟩
            obtain ⟨u, hu⟩ := ih cs hlen qt hqt
              (fun x hx => hd x (List.mem_cons_of_mem qh hx)) hqt_pre
            exact ⟨u, by rw [List.cons_append, h1, hu]⟩

/-- The program's masking property for `str.replace`: after replacing every
occurrence of the nonempty pattern by a nonempty replacement sharing no
character with it, the pattern occurs nowhere in the output. -/
theorem pyReplaceNE_no_occursIn (p : Char) (ps rep : List Char) (hrep : rep ≠ [])
    (hd : ∀ c ∈ p :: ps, c ∉ rep) :
    ∀ n s, s.length ≤ n → ¬ occursIn (p :: ps) (pyReplaceNE p ps rep s) := by
  intro n
  induction n with
  | zero =>
    intro s hs hocc
    have hnil : s = [] := List.length_eq_zero.mp (Nat.le_zero.mp hs)
    subst hnil
    rw [pyReplaceNE_nil] at hocc
    obtain ⟨a, b, hab⟩ := hocc
    simp at hab
  | succ n ih =>
    intro s hs hocc
    cases s with
    | nil =>
      rw [pyReplaceNE_nil] at hocc
      obtain ⟨a, b, hab⟩ := hocc
      simp at hab
    | cons c cs =>
      have hlen : cs.length ≤ n := by
        simp only [List.length_cons] at hs
        omega
      cases hpf : (p :: ps).isPrefixOf (c :: cs) with
      | true =>
        rw [pyReplaceNE_cons_pos rep hpf] at hocc
        have hocc2 := not_occursIn_append_left (List.cons_ne_nil p ps) rep _ hd hocc
        refine ih (cs.drop ps.length) ?_ hocc2
        have := List.length_drop ps.length cs
        omega
      | false =>
        rw [pyReplaceNE_cons_neg rep hpf] at hocc
        rcases occursIn_cons hocc with ⟨b, hb⟩ | h2
        · rw [List.cons_append] at hb
          injection hb with h1 h2'
          by_cases hps : ps = []
          · subst hps
            rw [← h1] at hpf
            simp [List.isPrefixOf] at hpf
          · have hps_pre : ps <+: pyReplaceNE p ps rep cs := ⟨b, h2'.symm⟩
            have hr : ps <+: cs := pyReplaceNE_reflect p ps rep hrep n cs hlen ps hps
              (fun x hx => hd x (List.mem_cons_of_mem p hx)) hps_pre
            have htrue : (p :: ps).isPrefixOf (c :: cs) = true := by
              apply List.isPrefixOf_iff_prefix.mpr
              obtain ⟨u, hu⟩ := hr
              exact ⟨u, by rw [List.cons_append, ← h1, hu]⟩
            rw [hpf] at htrue
            cases htrue
        · exact ih cs hlen h2

theorem isAbsolute_append {a : String} (b : String) (h : isAbsolute a = true) :
    isAbsolute (a ++ b) = true := by
  unfold isAbsolute at h ⊢
  rw [String.data_append]
  cases ha : a.data with
  | nil => rw [ha] at h; simp at h
  | cons c cs =>
    rw [ha] at h
    simpa using h

/-! ## Claim theorems -/

/-- C1: For every session id, a `DuckDBManager` records at most one backing
file path: the first `get_connection` call for an id computes and stores the
path; every later call for the same id — under any environment — returns the
stored path and leaves the state unchanged, so two calls yield connections
to the same backing file; and no operation (`get_connection` for any id, or
the scoped `connection` helper) ever removes or replaces a stored path. -/
theorem c1_session_path_stable (m : DuckDBManagerState) (env env' : SysEnv) (s : String) :
    (get_connection (get_connection m env s).state env' s).dbFile
        = (get_connection m env s).dbFile ∧
    (get_connection (get_connection m env s).state env' s).state
        = (get_connection m env s).state ∧
    (get_connection m env s).state.dbFiles.lookup s = some (get_connection m env s).dbFile ∧
    (∀ f, m.dbFiles.lookup s = some f →
      (get_connection m env s).dbFile = f ∧ (get_connection m env s).state = m) ∧
    (∀ t f, m.dbFiles.lookup t = some f →
      (get_connection m env s).state.dbFiles.lookup t = some f) ∧
    (∀ body : String → BodyOutcome Unit,
      (connection m env s body).1 = (get_connection m env s).state) := by
  have hself := get_connection_lookup_self m env s
  refine ⟨?_, ?_, hself, ?_, ?_, ?_⟩
  · rw [get_connection_of_some hself]
  · rw [get_connection_of_some hself]
  · intro f hf
    rw [get_connection_of_some hf]
    exact ⟨rfl, rfl⟩
  · intro t f hf
    cases h : m.dbFiles.lookup s with
    | some g => rw [get_connection_of_some h]; exact hf
    | none =>
      rw [get_connection_of_none h]
      exact lookup_append_of_some hf
  · intro body
    rfl

/-- Witness for C1 at a concrete manager whose dict already binds `"s1"`. -/
theorem c1_witness :
    (get_connection ⟨some "/data", [("s1", "/data/df_s1.duckdb")]⟩
        ⟨"/cwd", "/tmp", id, fun _ => true⟩ "s1").dbFile = "/data/df_s1.duckdb" ∧
    (get_connection ⟨some "/data", [("s1", "/data/df_s1.duckdb")]⟩
        ⟨"/cwd", "/tmp", id, fun _ => true⟩ "s1").state
      = ⟨some "/data", [("s1", "/data/df_s1.duckdb")]⟩ :=
  (c1_session_path_stable ⟨some "/data", [("s1", "/data/df_s1.duckdb")]⟩
    ⟨"/cwd", "/tmp", id, fun _ => true⟩ ⟨"/cwd", "/tmp", id, fun _ => true⟩
    "s1").2.2.2.1 "/data/df_s1.duckdb" (by decide)

/-- C9: `get_connection s1` never writes any dict key other than `s1`: the
recorded backing path of every other session id is unchanged. -/
theorem c9_other_sessions_unchanged (m : DuckDBManagerState) (env : SysEnv)
    (s1 s2 : String) (h : s1 ≠ s2) :
    (get_connection m env s1).state.dbFiles.lookup s2 = m.dbFiles.lookup s2 := by
  cases hl : m.dbFiles.lookup s1 with
  | some f => rw [get_connection_of_some hl]
  | none =>
    rw [get_connection_of_none hl]
    exact lookup_append_singleton_ne _ (Ne.symm h)

/-- Witness for C9: registering `"a"` leaves `"b"`'s recorded path alone. -/
theorem c9_witness :
    (get_connection ⟨none, [("b", "/tmp/df_b.duckdb")]⟩
        ⟨"/cwd", "/tmp", id, fun _ => true⟩ "a").state.dbFiles.lookup "b"
      = ([("b", "/tmp/df_b.duckdb")] : List (String × String)).lookup "b" :=
  c9_other_sessions_unchanged ⟨none, [("b", "/tmp/df_b.duckdb")]⟩
    ⟨"/cwd", "/tmp", id, fun _ => true⟩ "a" "b" (by decide)

/-- C2: the scoped helper `connection` yields exactly the connection
produced by `get_connection` for the session, propagates the body's outcome
unchanged (normal return, exception, or cancellation), and closes that
connection exactly once on every such exit path, whatever the body did with
it. -/
theorem c2_scoped_connection_close {α : Type} (m : DuckDBManagerState) (env : SysEnv)
    (s : String) (body : String → BodyOutcome α) :
    (connection m env s body).1 = (get_connection m env s).state ∧
    (connection m env s body).2.1 = body (get_connection m env s).dbFile ∧
    (connection m env s body).2.2 = [(get_connection m env s).dbFile] ∧
    ((connection m env s body).2.2).count (get_connection m env s).dbFile = 1 := by
  refine ⟨rfl, rfl, rfl, ?_⟩
  simp [connection]

/-- C6: on a first call for a session id, `os.makedirs` (which creates the
directory when missing) is attempted exactly on the configured directory
(`_local_db_dir`, or the temp directory when unset); when that
create-and-write test fails the manager silently uses the platform temp
directory instead; and in every case the backing file is
`df_<session_id>.duckdb` inside the chosen directory (then
symlink-resolved). -/
theorem c6_fallback_and_naming (m : DuckDBManagerState) (env : SysEnv) (s : String)
    (hfresh : m.dbFiles.lookup s = none) :
    (get_connection m env s).mkdirsOn = some (configured_db_dir m env) ∧
    (get_connection m env s).dbFile =
      env.resolve ((if env.writable (configured_db_dir m env) then configured_db_dir m env
        else env.tempDir) ++ "/" ++ "df_" ++ s ++ ".duckdb") := by
  rw [get_connection_of_none hfresh]
  exact ⟨rfl, rfl⟩

/-- Witness for C6 with an unwritable configured directory, exhibiting the
temp-directory fallback. -/
theorem c6_witness :
    (get_connection ⟨some "/data", []⟩ ⟨"/cwd", "/tmp", id, fun _ => false⟩ "s1").mkdirsOn
      = some (configured_db_dir ⟨some "/data", []⟩ ⟨"/cwd", "/tmp", id, fun _ => false⟩) ∧
    (get_connection ⟨some "/data", []⟩ ⟨"/cwd", "/tmp", id, fun _ => false⟩ "s1").dbFile =
      (⟨"/cwd", "/tmp", id, fun _ => false⟩ : SysEnv).resolve
        ((if (⟨"/cwd", "/tmp", id, fun _ => false⟩ : SysEnv).writable
            (configured_db_dir ⟨some "/data", []⟩ ⟨"/cwd", "/tmp", id, fun _ => false⟩)
          then configured_db_dir ⟨some "/data", []⟩ ⟨"/cwd", "/tmp", id, fun _ => false⟩
          else (⟨"/cwd", "/tmp", id, fun _ => false⟩ : SysEnv).tempDir)
          ++ "/" ++ "df_" ++ "s1" ++ ".duckdb") :=
  c6_fallback_and_naming ⟨some "/data", []⟩ ⟨"/cwd", "/tmp", id, fun _ => false⟩ "s1" rfl

/-- C3: in the `PostgreSQLDataLoader` constructor, the pre-attach DETACH
outcome never influences the result (its failure is always swallowed);
an extension install or load failure raises the wrapped
`Failed to install/load PostgreSQL extension: <e>` message; an attach
failure raises the wrapped `Failed to connect to PostgreSQL: <e>` message;
and nothing else is suppressed: the constructor succeeds exactly when
install, load and attach all succeed. -/
theorem c3_constructor_error_paths (ops : PgConnOps) (params : List (String × String)) :
    ((pgLoaderInit ops params).1 = .ok () ↔
      (ops.install_ext = .ok () ∧ ops.load_ext = .ok () ∧ ops.attach = .ok ())) ∧
    (∀ d, (pgLoaderInit ⟨ops.install_ext, ops.load_ext, d, ops.attach⟩ params).1
      = (pgLoaderInit ops params).1) ∧
    (∀ e, ops.install_ext = .error e → (pgLoaderInit ops params).1
      = .error ("Failed to install/load PostgreSQL extension: " ++ e)) ∧
    (∀ e, ops.install_ext = .ok () → ops.load_ext = .error e → (pgLoaderInit ops params).1
      = .error ("Failed to install/load PostgreSQL extension: " ++ e)) ∧
    (∀ e, ops.install_ext = .ok () → ops.load_ext = .ok () → ops.attach = .error e →
      (pgLoaderInit ops params).1 = .error ("Failed to connect to PostgreSQL: " ++ e)) := by
  obtain ⟨i, l, d, a⟩ := ops
  refine ⟨?_, ?_, ?_, ?_, ?_⟩
  · cases i with
    | error e => simp [pgLoaderInit]
    | ok u =>
      cases l with
      | error e => simp [pgLoaderInit]
      | ok u' =>
        cases a with
        | error e => simp [pgLoaderInit]
        | ok u'' => simp [pgLoaderInit]
  · intro d'
    cases i with
    | error e => simp [pgLoaderInit]
    | ok u =>
      cases l with
      | error e => simp [pgLoaderInit]
      | ok u' =>
        cases a with
        | error e => simp [pgLoaderInit]
        | ok u'' => simp [pgLoaderInit]
  · intro e he
    cases he
    simp [pgLoaderInit]
  · intro e hi he
    cases hi
    cases he
    simp [pgLoaderInit]
  · intro e hi hl ha
    cases hi
    cases hl
    cases ha
    simp [pgLoaderInit]

/-- Witness for C3: a failing attach with install/load succeeding. -/
theorem c3_witness :
    (pgLoaderInit ⟨.ok (), .ok (), .ok (), .error "boom"⟩ []).1
      = .error ("Failed to connect to PostgreSQL: " ++ "boom") :=
  (c3_constructor_error_paths ⟨.ok (), .ok (), .ok (), .error "boom"⟩ []).2.2.2.2
    "boom" rfl rfl rfl

/-- C4 counterexample: with the relative directory argument `"d"`, running
the constructor from working directory `/a` and from `/b` (same symlink
structure, modelled by an identity `resolve`) stores two different paths, so
the resolved path is *not* the same regardless of the current working
directory at call time. -/
theorem c4_counterexample :
    (DuckDBManager_init (some "d") ⟨"/a", "/tmp", id, fun _ => true⟩).localDbDir
      ≠ (DuckDBManager_init (some "d") ⟨"/b", "/tmp", id, fun _ => true⟩).localDbDir := by
  decide

/-- C4 (amended): for every non-empty directory argument the stored
directory path is the `Path.resolve` (symlink-resolved) image of an
absolute path, hence absolute whenever the OS's `resolve` preserves
absoluteness and the working directory is absolute; and for an *absolute*
directory argument the stored path does not depend on the call-time working
directory. (A relative argument is resolved against the call-time cwd, so
there it can differ — which is what the counterexample exhibits.) -/
theorem c4_amended (d : String) (env env' : SysEnv)
    (hd : d ≠ "")
    (hres : ∀ p, isAbsolute p = true → isAbsolute (env.resolve p) = true)
    (hcwd : isAbsolute env.cwd = true) :
    (DuckDBManager_init (some d) env).localDbDir
      = some (env.resolve (if isAbsolute d then d else env.cwd ++ "/" ++ d)) ∧
    (∀ dir, (DuckDBManager_init (some d) env).localDbDir = some dir →
      isAbsolute dir = true) ∧
    (isAbsolute d = true → env'.resolve = env.resolve →
      (DuckDBManager_init (some d) env').localDbDir
        = (DuckDBManager_init (some d) env).localDbDir) := by
  refine ⟨by simp [DuckDBManager_init, hd], ?_, ?_⟩
  · intro dir hdir
    simp only [DuckDBManager_init, hd, if_false, Option.some.injEq] at hdir
    cases habs : isAbsolute d with
    | true =>
      rw [habs] at hdir
      simp only [if_true] at hdir
      rw [← hdir]
      exact hres d habs
    | false =>
      rw [habs] at hdir
      simp only [Bool.false_eq_true, if_false] at hdir
      rw [← hdir]
      exact hres _ (isAbsolute_append d (isAbsolute_append "/" hcwd))
  · intro habs hre
    simp [DuckDBManager_init, hd, habs, hre]

/-- Witness for C4 (amended) at the absolute argument `"/data"` and two
environments differing only in cwd. -/
theorem c4_witness :
    (DuckDBManager_init (some "/data") ⟨"/a", "/tmp", id, fun _ => true⟩).localDbDir
      = some ((⟨"/a", "/tmp", id, fun _ => true⟩ : SysEnv).resolve
          (if isAbsolute "/data" then "/data"
           else (⟨"/a", "/tmp", id, fun _ => true⟩ : SysEnv).cwd ++ "/" ++ "/data")) ∧
    (∀ dir,
      (DuckDBManager_init (some "/data") ⟨"/a", "/tmp", id, fun _ => true⟩).localDbDir
        = some dir → isAbsolute dir = true) ∧
    (isAbsolute "/data" = true →
      (⟨"/b", "/tmp", id, fun _ => true⟩ : SysEnv).resolve
        = (⟨"/a", "/tmp", id, fun _ => true⟩ : SysEnv).resolve →
      (DuckDBManager_init (some "/data") ⟨"/b", "/tmp", id, fun _ => true⟩).localDbDir
        = (DuckDBManager_init (some "/data") ⟨"/a", "/tmp", id, fun _ => true⟩).localDbDir) :=
  c4_amended "/data" ⟨"/a", "/tmp", id, fun _ => true⟩ ⟨"/b", "/tmp", id, fun _ => true⟩
    (by decide) (fun p hp => hp) (by decide)

/-- A sample catalog: one foreign table of 100 rows. -/
def sampleDb : Database Nat := ⟨[("postgresdb.public.t", List.range 100)]⟩

/-- C7: `ingest_data` materializes the first `size` rows of the source table
into `main.<name>`, overwriting any existing binding of that name (the
lookup afterwards returns exactly the taken rows, whatever was there
before); the destination name defaults to the last dot-separated segment of
the source name run through the sanitizer; and when the source has at least
`size` rows the new table has exactly `size` rows. -/
theorem c7_ingest_limit {α : Type} (db : Database α) (table_name : String) (size : Nat)
    (rows : List α) (h : db.tables.lookup table_name = some rows) :
    ingest_data db table_name none size =
      .ok ⟨setTable db.tables
        ("main." ++ sanitize_table_name ((table_name.splitOn ".").getLastD ""))
        (rows.take size)⟩ ∧
    (∀ db', ingest_data db table_name none size = .ok db' →
      db'.tables.lookup
          ("main." ++ sanitize_table_name ((table_name.splitOn ".").getLastD ""))
        = some (rows.take size)) ∧
    (size ≤ rows.length → (rows.take size).length = size) := by
  refine ⟨by simp [ingest_data, h], ?_, ?_⟩
  · intro db' hdb'
    simp only [ingest_data, h, Except.ok.injEq] at hdb'
    rw [← hdb']
    exact lookup_setTable_self _ _ _
  · intro hs
    simp [List.length_take, Nat.min_eq_left hs]

/-- Witness for C7: `size = 5` against the 100-row sample table yields
exactly 5 rows. -/
theorem c7_witness :
    ingest_data sampleDb "postgresdb.public.t" none 5 =
      .ok ⟨setTable sampleDb.tables
        ("main." ++ sanitize_table_name (("postgresdb.public.t".splitOn ".").getLastD ""))
        ((List.range 100).take 5)⟩ ∧
    ((List.range 100).take 5).length = 5 :=
  ⟨(c7_ingest_limit sampleDb "postgresdb.public.t" 5 (List.range 100) rfl).1,
   (c7_ingest_limit sampleDb "postgresdb.public.t" 5 (List.range 100) rfl).2.2 (by decide)⟩

/-- C10: `ingest_data` runs the destination name through
`sanitize_table_name` also when the caller supplies an explicit `name_as`,
so the created local table's identifier is always the sanitizer's output. -/
theorem c10_sanitize_explicit_name {α : Type} (db : Database α) (table_name given : String)
    (size : Nat) (rows : List α) (h : db.tables.lookup table_name = some rows) :
    ingest_data db table_name (some given) size =
      .ok ⟨setTable db.tables ("main." ++ sanitize_table_name given) (rows.take size)⟩ ∧
    (∀ db', ingest_data db table_name (some given) size = .ok db' →
      db'.tables.lookup ("main." ++ sanitize_table_name given) = some (rows.take size)) := by
  refine ⟨by simp [ingest_data, h], ?_⟩
  intro db' hdb'
  simp only [ingest_data, h, Except.ok.injEq] at hdb'
  rw [← hdb']
  exact lookup_setTable_self _ _ _

/-- Witness for C10 with the explicit, sanitizer-relevant name
`"my table"`. -/
theorem c10_witness :
    ingest_data sampleDb "postgresdb.public.t" (some "my table") 3 =
      .ok ⟨setTable sampleDb.tables ("main." ++ sanitize_table_name "my table")
        ((List.range 100).take 3)⟩ :=
  (c10_sanitize_explicit_name sampleDb "postgresdb.public.t" "my table" 3
    (List.range 100) rfl).1

/-- C8: `view_query_sample` returns the first 10 rows of the query result
(a prefix of length `min 10 n`); a result with at most 10 rows is returned
whole, and an empty result yields the empty sequence. -/
theorem c8_view_query_sample {α : Type} (conn : QueryConn α) (q : String) :
    view_query_sample conn q <+: conn.execute q ∧
    (view_query_sample conn q).length = min 10 (conn.execute q).length ∧
    ((conn.execute q).length ≤ 10 → view_query_sample conn q = conn.execute q) ∧
    (conn.execute q = [] → view_query_sample conn q = []) := by
  refine ⟨?_, List.length_take _ _, ?_, ?_⟩
  · exact List.take_prefix _ _
  · intro hl
    exact List.take_of_length_le hl
  · intro he
    simp [view_query_sample, he]

/-- Witness for C8 on a query returning 0 rows. -/
theorem c8_witness :
    view_query_sample ⟨fun _ => ([] : List Nat)⟩ "SELECT * FROM t WHERE 1 = 0" = [] :=
  (c8_view_query_sample ⟨fun _ => ([] : List Nat)⟩ "SELECT * FROM t WHERE 1 = 0").2.2.2 rfl

/-- C5 counterexample: with `user` equal to `password` (both `"alice"`),
the connection-URL log line emitted by the constructor contains the
password value — the line masks only the password *slot*, and the user slot
is logged verbatim. So "the password value never appears in any logged
string" is false as stated. -/
theorem c5_counterexample :
    connection_url_log [("user", "alice"), ("password", "alice"), ("host", "localhost"),
        ("database", "postgres"), ("port", "5432")]
      ∈ (pgLoaderInit ⟨.ok (), .ok (), .ok (), .ok ()⟩
          [("user", "alice"), ("password", "alice"), ("host", "localhost"),
            ("database", "postgres"), ("port", "5432")]).2 ∧
    occursIn (getParam [("user", "alice"), ("password", "alice"), ("host", "localhost"),
        ("database", "postgres"), ("port", "5432")] "password" "").data
      (connection_url_log [("user", "alice"), ("password", "alice"), ("host", "localhost"),
        ("database", "postgres"), ("port", "5432")]).data := by
  constructor
  · simp [pgLoaderInit]
  · refine ⟨"Connection URL (masked): postgresql://".data,
      ":***@localhost:5432/postgres".data, ?_⟩
    decide

/-- C5 (amended): each log line masks the password's dedicated slot — the
params log renders the `password` key's value as `***`, the URL log renders
`***` in the URL's password position, and the attach-query log replaces
every occurrence of the password in the attach query with `***`, so that a
nonempty password containing no `*` character never occurs in the logged
(replaced) query text. The password value can still appear in a log line
when it coincides with or occurs inside other logged content (for example
another parameter with the same value), as the counterexample shows. -/
theorem c5_password_slot_masked (params : List (String × String))
    (hne : getParam params "password" "" ≠ "")
    (hstar : ∀ c ∈ (getParam params "password" "").data, c ≠ '*') :
    ¬ occursIn (getParam params "password" "").data
        (pyReplace (attach_query params) (getParam params "password" "") "***").data ∧
    (∀ kv ∈ maskParams params, kv.1 = "password" → kv.2 = "***") ∧
    attach_query_log params = "Executing attach query: "
      ++ pyReplace (attach_query params) (getParam params "password" "") "***" := by
  refine ⟨?_, ?_, rfl⟩
  · have hdne : (getParam params "password" "").data ≠ [] := by
      intro h
      apply hne
      apply String.ext
      rw [h]
    cases hd : (getParam params "password" "").data with
    | nil => exact absurd hd hdne
    | cons p ps =>
      have heq : (pyReplace (attach_query params) (getParam params "password" "") "***").data
          = pyReplaceNE p ps ("***" : String).data (attach_query params).data := by
        unfold pyReplace
        rw [hd]
      rw [heq]
      refine pyReplaceNE_no_occursIn p ps ("***" : String).data (by decide) ?_
        (attach_query params).data.length _ le_rfl
      intro c hc hcr
      have hstar' : c = '*' := by
        have h3 : ("***" : String).data = ['*', '*', '*'] := rfl
        rw [h3] at hcr
        simpa using hcr
      exact hstar c (by rw [hd]; exact hc) hstar'
  · intro kv hkv hk
    obtain ⟨orig, horig, hfe⟩ := List.mem_map.mp hkv
    by_cases ho : (orig.1 == "password") = true
    · rw [if_pos ho] at hfe
      rw [← hfe]
    · rw [if_neg ho] at hfe
      subst hfe
      exact absurd (beq_iff_eq.mpr hk) ho

/-- Witness for C5 (amended) at a concrete params mapping with password
`"pw"`. -/
theorem c5_witness :
    ¬ occursIn (getParam [("user", "u"), ("password", "pw")] "password" "").data
        (pyReplace (attach_query [("user", "u"), ("password", "pw")])
          (getParam [("user", "u"), ("password", "pw")] "password" "") "***").data ∧
    (∀ kv ∈ maskParams [("user", "u"), ("password", "pw")],
      kv.1 = "password" → kv.2 = "***") ∧
    attach_query_log [("user", "u"), ("password", "pw")] = "Executing attach query: "
      ++ pyReplace (attach_query [("user", "u"), ("password", "pw")])
        (getParam [("user", "u"), ("password", "pw")] "password" "") "***" :=
  c5_password_slot_masked [("user", "u"), ("password", "pw")] (by decide) (by decide)

end DataFormulator
